import Mathlib

/-!
Shallow embedding of the agent hand-off examples:
`builder.py`, `builder_stream.py` and `sim_editor.py` from
`examples/pydantic_ai_examples`, together with theorems settling the
specification's claims about them.

Conventions: Python strings become `String` (or `List Char` where index
arithmetic matters), optional fields become `Option`, fallible calls return
`Except`, the external model-invocation transport is passed in as an explicit
oracle function, and the mutable `deps` object is threaded as explicit state.
-/

/-- pydantic_ai's `ModelRetry` exception: a retryable signal carrying a
message back to the model. -/
structure ModelRetry where
  message : String
deriving DecidableEq, Repr

/-- An error raised by the external model-invocation transport
(timeout, rate limit, ...); opaque to this code. -/
structure TransportError where
  message : String
deriving DecidableEq, Repr

namespace Builder

/-- Model `AgentConfig` from `builder.py` (lines 17-37): configuration for a new
agent to be created.  All five fields are plain `str` fields; `model_name`
is declared `Literal['claude-3-5-sonnet-latest']` with that literal as its
default; `avatar` is a required field in this variant. -/
structure AgentConfig where
  system_prompt : String
  model_name : String
  name : String
  description : String
  avatar : String
deriving DecidableEq, Repr

/-- Model `AgentResponse` from `builder.py` (lines 39-41). -/
structure AgentResponse where
  response : String
deriving DecidableEq, Repr

/-- A candidate configuration as produced by the model before pydantic
validation: each field may be absent. -/
structure RawAgentConfig where
  system_prompt : Option String
  model_name : Option String
  name : Option String
  description : Option String
  avatar : Option String
deriving DecidableEq, Repr

/-- Validation errors for a candidate `AgentConfig` (the spec's
`SchemaValidationError` / `UnsupportedModelError` taxonomy). -/
inductive SchemaError where
  | missingField (field : String)
  | unsupportedModel (model : String)
deriving DecidableEq, Repr

/-- The closed set of supported model names: the declared
`Literal['claude-3-5-sonnet-latest']` type of `model_name`. -/
def supportedModels : List String := ["claude-3-5-sonnet-latest"]

/-- Modelled from the spec: pydantic's field validation of tool arguments is
library code not under `src/`; this follows the schema declared in
`builder.py` lines 17-37.  Each required `str` field must be present (any
string, including the empty string, is a valid `str`); `model_name` defaults
to `'claude-3-5-sonnet-latest'` when omitted and must equal that literal when
supplied; `avatar` is required. -/
def validateAgentConfig (raw : RawAgentConfig) : Except SchemaError AgentConfig :=
  match raw.system_prompt with
  | none => .error (.missingField "system_prompt")
  | some sp =>
    match raw.model_name with
    | some m =>
      if m ∈ supportedModels then
        match raw.name, raw.description, raw.avatar with
        | none, _, _ => .error (.missingField "name")
        | some _, none, _ => .error (.missingField "description")
        | some _, some _, none => .error (.missingField "avatar")
        | some n, some d, some av => .ok ⟨sp, m, n, d, av⟩
      else .error (.unsupportedModel m)
    | none =>
      match raw.name, raw.description, raw.avatar with
      | none, _, _ => .error (.missingField "name")
      | some _, none, _ => .error (.missingField "description")
      | some _, some _, none => .error (.missingField "avatar")
      | some n, some d, some av => .ok ⟨sp, "claude-3-5-sonnet-latest", n, d, av⟩

/-- The sub-agent handle built by `create_agent`:
`Agent[None, str](config.model_name, system_prompt=..., name=...)`
(`builder.py` lines 91-95). -/
structure Agent where
  model_name : String
  system_prompt : String
  name : String
deriving DecidableEq, Repr

/-- Model `BuilderDeps` from `builder.py` (lines 43-50): state about the currently
created agent and its configuration.  Both fields default to `None`. -/
structure BuilderDeps where
  current_config : Option AgentConfig := none
  created_agent : Option Agent := none
deriving DecidableEq, Repr

/-- The initial dependencies `BuilderDeps()` built in `main` (line 134). -/
def initDeps : BuilderDeps := {}

/-- The `create_agent` tool (`builder.py` lines 81-100) on an
already-validated `AgentConfig`: stores the configuration, constructs the
new agent, stores it, and returns the configuration. -/
def create_agent (config : AgentConfig) (deps : BuilderDeps) :
    AgentConfig × BuilderDeps :=
  let deps := { deps with current_config := some config }
  let new_agent : Agent := ⟨config.model_name, config.system_prompt, config.name⟩
  let deps := { deps with created_agent := some new_agent }
  (config, deps)

/-- The full build step as seen from the model: the candidate tool argument
is validated against the `AgentConfig` schema before the `create_agent` body
runs; a validation failure reaches the tool body not at all, so the deps are
returned unchanged. -/
def build (raw : RawAgentConfig) (deps : BuilderDeps) :
    Except SchemaError AgentConfig × BuilderDeps :=
  match validateAgentConfig raw with
  | .error e => (.error e, deps)
  | .ok config =>
    let (c, deps) := create_agent config deps
    (.ok c, deps)

/-- The accumulation loop `response_text += chunk` over the streamed
delta chunks (`builder.py` lines 112-115 and 126-128). -/
def accumulate_chunks (chunks : List String) : String :=
  chunks.foldl (fun acc c => acc ++ c) ""

/-- Modelled from the spec: the single blocking call of §4.4 is not under
`src/`; per the spec it "emits the full text exactly once", the full text of
the logical response being the join of all its fragments in order. -/
def deliver_blocking (fragments : List String) : String :=
  String.join fragments

/-- The `handoff_to_agent` tool (`builder.py` lines 102-118).  The created
agent's streaming run is the external oracle `stream`, yielding the delta
chunks of the response.  If no agent has been created the tool raises
`ModelRetry`; the deps are never mutated by this variant. -/
def handoff_to_agent (stream : Agent → String → List String)
    (deps : BuilderDeps) (query : String) :
    Except ModelRetry AgentResponse × BuilderDeps :=
  match deps.created_agent with
  | none =>
    (.error ⟨"No agent has been created yet. Please create an agent first."⟩, deps)
  | some ag =>
    let response_text := accumulate_chunks (stream ag query)
    (.ok ⟨response_text⟩, deps)

/-- Function `chat_with_agent` (`builder.py` lines 120-129): streams the agent's
response for a message and history, accumulating the delta chunks, and
returns the text with the run's new messages.  The oracle returns the
chunks and the new messages of the run. -/
def chat_with_agent {M : Type}
    (streamRun : String → Option (List M) → List String × List M)
    (user_message : String) (message_history : Option (List M)) :
    String × List M :=
  let (chunks, newMsgs) := streamRun user_message message_history
  (accumulate_chunks chunks, newMsgs)

/-- The deps states reachable across turns of a session of `builder.py`:
the session starts at `initDeps` and each turn either runs the
`create_agent` tool (with a validated configuration) or the
`handoff_to_agent` tool. -/
inductive Reachable : BuilderDeps → Prop where
  | init : Reachable initDeps
  | create (config : AgentConfig) (d : BuilderDeps) :
      Reachable d → Reachable (create_agent config d).2
  | handoff (stream : Agent → String → List String) (q : String)
      (d : BuilderDeps) :
      Reachable d → Reachable (handoff_to_agent stream d q).2

end Builder

namespace BuilderStream

/-- Model `AgentConfig` from `builder_stream.py` (lines 23-40): like the
`builder.py` variant but with no `avatar` field. -/
structure AgentConfig where
  system_prompt : String
  model_name : String
  name : String
  description : String
deriving DecidableEq, Repr

/-- Model `AgentResponse` from `builder_stream.py` (lines 42-44). -/
structure AgentResponse where
  response : String
deriving DecidableEq, Repr

/-- A candidate configuration before pydantic validation. -/
structure RawAgentConfig where
  system_prompt : Option String
  model_name : Option String
  name : Option String
  description : Option String
deriving DecidableEq, Repr

/-- Modelled from the spec: pydantic's field validation of tool arguments is
library code not under `src/`; this follows the schema declared in
`builder_stream.py` lines 23-40 (same as `builder.py` without `avatar`). -/
def validateAgentConfig (raw : RawAgentConfig) :
    Except Builder.SchemaError AgentConfig :=
  match raw.system_prompt with
  | none => .error (.missingField "system_prompt")
  | some sp =>
    match raw.model_name with
    | some m =>
      if m ∈ Builder.supportedModels then
        match raw.name, raw.description with
        | none, _ => .error (.missingField "name")
        | some _, none => .error (.missingField "description")
        | some n, some d => .ok ⟨sp, m, n, d⟩
      else .error (.unsupportedModel m)
    | none =>
      match raw.name, raw.description with
      | none, _ => .error (.missingField "name")
      | some _, none => .error (.missingField "description")
      | some n, some d => .ok ⟨sp, "claude-3-5-sonnet-latest", n, d⟩

/-- The sub-agent handle built by `create_agent`
(`builder_stream.py` lines 90-94). -/
structure Agent where
  model_name : String
  system_prompt : String
  name : String
deriving DecidableEq, Repr

/-- Model `BuilderDeps` from `builder_stream.py` (lines 46-57): this variant also
carries the session's `message_history`.  `M` is the opaque type of
`pydantic_ai.messages.ModelMessage` records. -/
structure BuilderDeps (M : Type) where
  message_history : List M
  current_config : Option AgentConfig := none
  created_agent : Option Agent := none
deriving DecidableEq, Repr

/-- Constructor `BuilderDeps.__init__` (lines 56-57): the history starts empty. -/
def initDeps (M : Type) : BuilderDeps M := { message_history := [] }

/-- The result of a completed (non-streaming) run of the created agent:
its newly generated messages and its final text output. -/
structure RunResult (M : Type) where
  new_messages : List M
  data : String
deriving DecidableEq, Repr

/-- Modelled from the spec: pydantic_ai's `RunResult.all_messages()` is
library code not under `src/`.  It returns the full conversation of the run
— the `message_history` passed into the run followed by the messages newly
generated during it — whereas `new_messages()` (used by `builder.py`'s
`chat_with_agent`) returns only the newly generated ones ("history grows by
exactly the messages of T"). -/
def all_messages {M : Type} (history : List M) (result : RunResult M) : List M :=
  history ++ result.new_messages

/-- The `create_agent` tool (`builder_stream.py` lines 86-96). -/
def create_agent {M : Type} (config : AgentConfig) (deps : BuilderDeps M) :
    AgentConfig × BuilderDeps M :=
  let deps := { deps with current_config := some config }
  let new_agent : Agent := ⟨config.model_name, config.system_prompt, config.name⟩
  let deps := { deps with created_agent := some new_agent }
  (config, deps)

/-- Errors escaping `handoff_to_agent`: the explicit `ModelRetry` raised when
no agent exists, or an error propagated from the sub-agent's run. -/
inductive HandoffError where
  | retry (r : ModelRetry)
  | transport (e : TransportError)
deriving DecidableEq, Repr

/-- The `handoff_to_agent` tool (`builder_stream.py` lines 98-106).  `run` is
the external transport running the created agent on a query with the given
message history.  On success the code extends `deps.message_history` with
`result.all_messages()` — the passed-in history plus the run's new messages —
and returns the result text; when the run raises, the exception propagates
before the `extend`, leaving the deps untouched. -/
def handoff_to_agent {M : Type}
    (run : Agent → String → List M → Except TransportError (RunResult M))
    (deps : BuilderDeps M) (query : String) :
    Except HandoffError AgentResponse × BuilderDeps M :=
  match deps.created_agent with
  | none =>
    (.error (.retry ⟨"No agent has been created yet. Please create an agent first."⟩), deps)
  | some ag =>
    match run ag query deps.message_history with
    | .error e => (.error (.transport e), deps)
    | .ok result =>
      (.ok ⟨result.data⟩,
       { deps with
          message_history := deps.message_history ++ all_messages deps.message_history result })

/-- One tool invocation made by the builder model during a run. -/
inductive ToolCall where
  | create (config : AgentConfig)
  | handoff (query : String)
deriving DecidableEq, Repr

/-- A run of the builder agent as it affects the session deps: the model's
(externally chosen) sequence of tool calls is executed in order against the
deps, each tool mutating them as its body does. -/
def builder_run {M : Type}
    (run : Agent → String → List M → Except TransportError (RunResult M))
    (calls : List ToolCall) (deps : BuilderDeps M) : BuilderDeps M :=
  calls.foldl
    (fun d call =>
      match call with
      | .create config => (create_agent config d).2
      | .handoff query => (handoff_to_agent run d query).2)
    deps

end BuilderStream

namespace SimEditor

/-- The `Literal["thoughts", "memories", "communication_guidelines"]` type of
`EditRequest.section` (`sim_editor.py` line 21). -/
inductive SimSection where
  | thoughts
  | memories
  | communication_guidelines
deriving DecidableEq, Repr

/-- Model `EditRequest` from `sim_editor.py` (lines 19-22). -/
structure EditRequest where
  «section» : SimSection
  edit_instructions : String
deriving DecidableEq, Repr

/-- Python's `s.find(pat)` restricted to a found result: the least index at
which `pat` occurs as a substring of `s`, if any. -/
def strFind (s pat : List Char) : Option Nat :=
  if pat.isPrefixOf s then some 0
  else
    match s with
    | [] => none
    | _ :: t => (strFind t pat).map (· + 1)

/-- Python's `s.find(pat)`: the least index of an occurrence, or `-1`. -/
def pyFind (s pat : List Char) : Int :=
  match strFind s pat with
  | some n => (n : Int)
  | none => -1

/-- Python's slice `s[:i]`: a negative `i` counts from the end, clamped. -/
def pySliceTo (s : List Char) (i : Int) : List Char :=
  if 0 ≤ i then s.take i.toNat else s.take (s.length - (-i).toNat)

/-- Python's slice `s[i:]`: a negative `i` counts from the end, clamped. -/
def pySliceFrom (s : List Char) (i : Int) : List Char :=
  if 0 ≤ i then s.drop i.toNat else s.drop (s.length - (-i).toNat)

/-- The start marker searched for in the prompt (`sim_editor.py` line 68). -/
def startMarker : List Char := "Your thoughts as you join the call".toList

/-- The end marker searched for in the prompt (`sim_editor.py` line 69). -/
def endMarker : List Char := "Your recent memories for context".toList

/-- The `thoughts_text` accumulation (`sim_editor.py` lines 71-73): the fixed
header followed by each thought and a blank line. -/
def thoughtsText (thoughts : List String) : List Char :=
  thoughts.foldl (fun acc t => acc ++ (t.toList ++ ['\n', '\n']))
    "Your thoughts as you join the call (in no particular order):\n".toList

/-- The text standing strictly between the two markers after an update: the
tail of the rewritten header (the start marker is the header's prefix)
followed by the thoughts and their blank lines. -/
def newBetween (thoughts : List String) : List Char :=
  thoughts.foldl (fun acc t => acc ++ (t.toList ++ ['\n', '\n']))
    " (in no particular order):\n".toList

/-- The replacement computation of `sim_editor.py` lines 67-75:
`new_prompt = prompt[:start] + thoughts_text + prompt[end:]` with
`start = prompt.find(startMarker)` and `end = prompt.find(endMarker)`. -/
def updatePrompt (prompt : List Char) (thoughts : List String) : List Char :=
  let start := pyFind prompt startMarker
  let stop := pyFind prompt endMarker
  pySliceTo prompt start ++ thoughtsText thoughts ++ pySliceFrom prompt stop

/-- The persisted simulation file as this code sees it: the
`sim.elements[0].prompt` field of `sim.yaml` (the rest of the document is
read and written back verbatim). -/
structure SimFile where
  prompt : List Char
deriving DecidableEq, Repr

/-- The `edit_thoughts` tool (`sim_editor.py` lines 51-81).  `runEditor` is
the external `thoughts_editor_agent` run, producing the edited thoughts
list.  The result is the returned message, the simulation file after the
call, and the number of model calls made.  For any section other than
`thoughts` the tool returns its refusal string before the model call and
before any file access. -/
def edit_thoughts (runEditor : String → List String)
    (request : EditRequest) (file : SimFile) : String × SimFile × Nat :=
  if request.«section» ≠ SimSection.thoughts then
    ("Can only handle thoughts editing currently.", file, 0)
  else
    let thoughts := runEditor request.edit_instructions
    ("Successfully updated thoughts section with " ++
       toString thoughts.length ++ " thoughts.",
     ⟨updatePrompt file.prompt thoughts⟩, 1)

end SimEditor

/-! ## Helper lemmas -/

/-- A list is a Boolean prefix of itself followed by anything. -/
theorem SimEditor.isPrefixOf_append_self :
    ∀ (l t : List Char), l.isPrefixOf (l ++ t) = true := by
  intro l t
  induction l with
  | nil => simp [List.isPrefixOf]
  | cons a l ih => simp [List.isPrefixOf, ih]

/-- Function `strFind` returns the least index at which the pattern occurs: if the
pattern occurs at index `n` and at no smaller index, the find returns `n`. -/
theorem SimEditor.strFind_eq_some (pat : List Char) :
    ∀ (n : Nat) (s : List Char),
      (∀ i < n, pat.isPrefixOf (s.drop i) = false) →
      pat.isPrefixOf (s.drop n) = true →
      SimEditor.strFind s pat = some n := by
  intro n
  induction n with
  | zero =>
    intro s _ hpos
    rw [List.drop_zero] at hpos
    unfold SimEditor.strFind
    rw [if_pos hpos]
  | succ n ih =>
    intro s hneg hpos
    have h0 : pat.isPrefixOf s = false := by
      have h := hneg 0 (Nat.succ_pos n)
      rwa [List.drop_zero] at h
    cases s with
    | nil =>
      rw [List.drop_nil] at hpos
      cases pat with
      | nil => simp [List.isPrefixOf] at h0
      | cons p ps => simp [List.isPrefixOf] at hpos
    | cons hd t =>
      unfold SimEditor.strFind
      rw [if_neg (by simp [h0])]
      have ht : SimEditor.strFind t pat = some n := by
        apply ih
        · intro i hi
          have h := hneg (i + 1) (Nat.succ_lt_succ hi)
          simpa using h
        · simpa using hpos
      show Option.map (fun x => x + 1) (SimEditor.strFind t pat) = some (n + 1)
      rw [ht]
      rfl

/-- Pulling a prepended initial segment out of the accumulating fold. -/
theorem SimEditor.foldl_append_shift {β : Type} (g : β → List Char) :
    ∀ (l : List β) (x y : List Char),
      l.foldl (fun acc t => acc ++ g t) (x ++ y)
        = x ++ l.foldl (fun acc t => acc ++ g t) y := by
  intro l
  induction l with
  | nil => intro x y; rfl
  | cons t ts ih =>
    intro x y
    show ts.foldl _ ((x ++ y) ++ g t) = x ++ ts.foldl _ (y ++ g t)
    rw [List.append_assoc, ih]

/-- The rewritten `thoughts_text` block is the start marker followed by the
new between-markers text. -/
theorem SimEditor.thoughtsText_eq (thoughts : List String) :
    SimEditor.thoughtsText thoughts
      = SimEditor.startMarker ++ SimEditor.newBetween thoughts := by
  unfold SimEditor.thoughtsText SimEditor.newBetween
  have h : ("Your thoughts as you join the call (in no particular order):\n".toList : List Char)
      = SimEditor.startMarker ++ " (in no particular order):\n".toList := by decide
  rw [h]
  exact SimEditor.foldl_append_shift _ _ _ _

/-! ## Claim theorems -/

/-- Claim C6: the simulation-editor's section update performs
exact-text-boundary replacement — for every prompt containing the start
marker followed by the end marker (located, as `str.find` does, at their
first occurrences), the updated prompt keeps the text before the start
marker, the markers themselves, and the text from the end marker onward
unchanged, replacing only the text strictly between the two markers. -/
theorem updatePrompt_exact_boundary_replacement
    (a b c : List Char) (thoughts : List String)
    (hs : ∀ i < a.length,
      SimEditor.startMarker.isPrefixOf
        ((a ++ SimEditor.startMarker ++ b ++ SimEditor.endMarker ++ c).drop i) = false)
    (he : ∀ i < a.length + SimEditor.startMarker.length + b.length,
      SimEditor.endMarker.isPrefixOf
        ((a ++ SimEditor.startMarker ++ b ++ SimEditor.endMarker ++ c).drop i) = false) :
    SimEditor.updatePrompt (a ++ SimEditor.startMarker ++ b ++ SimEditor.endMarker ++ c) thoughts
      = a ++ SimEditor.startMarker ++ SimEditor.newBetween thoughts
          ++ SimEditor.endMarker ++ c := by
  set prompt := a ++ SimEditor.startMarker ++ b ++ SimEditor.endMarker ++ c with hprompt
  have h1 : prompt = a ++ (SimEditor.startMarker ++ (b ++ (SimEditor.endMarker ++ c))) := by
    simp [hprompt, List.append_assoc]
  have h2 : prompt = (a ++ SimEditor.startMarker ++ b) ++ (SimEditor.endMarker ++ c) := by
    simp [hprompt, List.append_assoc]
  have hlen : (a ++ SimEditor.startMarker ++ b).length
      = a.length + SimEditor.startMarker.length + b.length := by
    simp only [List.length_append]
  have hfind1 : SimEditor.strFind prompt SimEditor.startMarker = some a.length := by
    apply SimEditor.strFind_eq_some _ _ _ hs
    have hdrop : prompt.drop a.length
        = SimEditor.startMarker ++ (b ++ (SimEditor.endMarker ++ c)) := by
      rw [h1]
      exact List.drop_left a _
    rw [hdrop]
    exact SimEditor.isPrefixOf_append_self _ _
  have hfind2 : SimEditor.strFind prompt SimEditor.endMarker
      = some (a.length + SimEditor.startMarker.length + b.length) := by
    apply SimEditor.strFind_eq_some _ _ _ he
    have hdrop : prompt.drop (a.length + SimEditor.startMarker.length + b.length)
        = SimEditor.endMarker ++ c := by
      rw [h2, ← hlen]
      exact List.drop_left _ _
    rw [hdrop]
    exact SimEditor.isPrefixOf_append_self _ _
  show SimEditor.pySliceTo prompt (SimEditor.pyFind prompt SimEditor.startMarker)
      ++ SimEditor.thoughtsText thoughts
      ++ SimEditor.pySliceFrom prompt (SimEditor.pyFind prompt SimEditor.endMarker) = _
  rw [SimEditor.pyFind, SimEditor.pyFind, hfind1, hfind2]
  have hslice1 : SimEditor.pySliceTo prompt ((a.length : Nat) : Int) = a := by
    rw [SimEditor.pySliceTo, if_pos (Int.natCast_nonneg _), Int.toNat_natCast, h1]
    exact List.take_left a _
  have hslice2 : SimEditor.pySliceFrom prompt
      (((a.length + SimEditor.startMarker.length + b.length : Nat)) : Int)
      = SimEditor.endMarker ++ c := by
    rw [SimEditor.pySliceFrom, if_pos (Int.natCast_nonneg _), Int.toNat_natCast,
      h2, ← hlen]
    exact List.drop_left _ _
  rw [hslice1, hslice2, SimEditor.thoughtsText_eq]
  simp [List.append_assoc]

/-- Witness for C6 at a concrete prompt and thoughts list. -/
theorem updatePrompt_exact_boundary_replacement_witness :
    SimEditor.updatePrompt
      ("Intro. ".toList ++ SimEditor.startMarker ++ ": old\n".toList
        ++ SimEditor.endMarker ++ ": memories.".toList)
      ["Calm", "Ready"]
      = "Intro. ".toList ++ SimEditor.startMarker
          ++ SimEditor.newBetween ["Calm", "Ready"]
          ++ SimEditor.endMarker ++ ": memories.".toList :=
  updatePrompt_exact_boundary_replacement "Intro. ".toList ": old\n".toList
    ": memories.".toList ["Calm", "Ready"] (by decide) (by decide)

/-- Claim C10: for a request whose section is not `thoughts`, `edit_thoughts`
makes no model call and no file access, returning only the fixed refusal
message and leaving the simulation file unchanged. -/
theorem edit_thoughts_non_thoughts_section_is_pure
    (runEditor : String → List String) (request : SimEditor.EditRequest)
    (file : SimEditor.SimFile)
    (h : request.«section» ≠ SimEditor.SimSection.thoughts) :
    SimEditor.edit_thoughts runEditor request file
      = ("Can only handle thoughts editing currently.", file, 0) := by
  rw [SimEditor.edit_thoughts, if_pos h]

/-- Witness for C10 at a concrete non-thoughts request. -/
theorem edit_thoughts_non_thoughts_section_is_pure_witness :
    (SimEditor.EditRequest.mk SimEditor.SimSection.memories "tidy up").«section»
        ≠ SimEditor.SimSection.thoughts
    ∧ SimEditor.edit_thoughts (fun _ => ["x"])
        ⟨SimEditor.SimSection.memories, "tidy up"⟩ ⟨"p".toList⟩
      = ("Can only handle thoughts editing currently.", ⟨"p".toList⟩, 0) :=
  ⟨by decide,
   edit_thoughts_non_thoughts_section_is_pure (fun _ => ["x"])
     ⟨SimEditor.SimSection.memories, "tidy up"⟩ ⟨"p".toList⟩ (by decide)⟩

/-- Claim C1 (failing input): a successful hand-off turn in
`builder_stream.py` extends `message_history` with `result.all_messages()`
— the passed-in history plus the run's new messages — so with prior history
`[0]` and a run producing the single new message `1` the stored history
becomes `[0, 0, 1]`, duplicating the message already present instead of
growing by exactly the turn's messages `[0, 1]`. -/
theorem handoff_to_agent_duplicates_history :
    (BuilderStream.handoff_to_agent
        (fun _ _ _ => Except.ok ⟨[1], "hello"⟩)
        (⟨[0], none, some ⟨"claude-3-5-sonnet-latest", "sp", "HaikuBot"⟩⟩ :
          BuilderStream.BuilderDeps Nat)
        "q").2.message_history = [0, 0, 1]
    ∧ ([0, 0, 1] : List Nat) ≠ [0] ++ [1] :=
  ⟨rfl, by decide⟩

/-- Claim C2: across the turns of a `builder.py` session, `current_config`
is non-null if and only if `created_agent` is non-null; both are null in the
initial state, and `create_agent` — the only operation touching them — sets
both. -/
theorem reachable_handle_invariant :
    (Builder.initDeps.current_config = none ∧ Builder.initDeps.created_agent = none)
    ∧ ∀ d : Builder.BuilderDeps, Builder.Reachable d →
        (d.current_config.isSome ↔ d.created_agent.isSome) := by
  refine ⟨⟨rfl, rfl⟩, ?_⟩
  intro d h
  induction h with
  | init => simp [Builder.initDeps]
  | create config d _ _ => simp [Builder.create_agent]
  | handoff stream q d _ ih =>
    have hsame : (Builder.handoff_to_agent stream d q).2 = d := by
      rw [Builder.handoff_to_agent]
      cases d.created_agent <;> rfl
    rwa [hsame]

/-- Witness for C2: the invariant at the state reached by one build turn. -/
theorem reachable_handle_invariant_witness :
    ((Builder.create_agent ⟨"sp", "claude-3-5-sonnet-latest", "HaikuBot", "d", "av"⟩
        Builder.initDeps).2.current_config.isSome
      ↔ (Builder.create_agent ⟨"sp", "claude-3-5-sonnet-latest", "HaikuBot", "d", "av"⟩
        Builder.initDeps).2.created_agent.isSome) :=
  reachable_handle_invariant.2 _
    (Builder.Reachable.create ⟨"sp", "claude-3-5-sonnet-latest", "HaikuBot", "d", "av"⟩
      Builder.initDeps Builder.Reachable.init)

/-- Claim C3: a candidate configuration whose model identifier is outside
the supported set fails the build with the unsupported-model error and no
state mutation (the deps are returned unchanged, so a null
`created_agent` stays null); a candidate that validates updates both
`current_config` and `created_agent` — never just one of them. -/
theorem build_unsupported_model_atomic :
    (∀ (raw : Builder.RawAgentConfig) (deps : Builder.BuilderDeps) (m : String),
        raw.system_prompt.isSome → raw.name.isSome → raw.description.isSome →
        raw.avatar.isSome → raw.model_name = some m →
        m ∉ Builder.supportedModels →
        Builder.build raw deps = (.error (.unsupportedModel m), deps))
    ∧ (∀ (raw : Builder.RawAgentConfig) (deps : Builder.BuilderDeps)
        (config : Builder.AgentConfig),
        Builder.validateAgentConfig raw = .ok config →
        (Builder.build raw deps).2.current_config = some config ∧
        (Builder.build raw deps).2.created_agent
          = some ⟨config.model_name, config.system_prompt, config.name⟩) := by
  constructor
  · intro raw deps m hsp _ _ _ hm hmem
    obtain ⟨sp, hsp⟩ := Option.isSome_iff_exists.mp hsp
    simp [Builder.build, Builder.validateAgentConfig, hsp, hm, hmem]
  · intro raw deps config h
    rw [Builder.build, h]
    exact ⟨rfl, rfl⟩

/-- Witness for C3: the unsupported model `"gpt-99-nonexistent"` is rejected
with the state unchanged, and a validating candidate updates both fields. -/
theorem build_unsupported_model_atomic_witness :
    ("gpt-99-nonexistent" ∉ Builder.supportedModels
      ∧ Builder.build
          ⟨some "sp", some "gpt-99-nonexistent", some "n", some "d", some "av"⟩
          Builder.initDeps
        = (.error (.unsupportedModel "gpt-99-nonexistent"), Builder.initDeps))
    ∧ (Builder.validateAgentConfig ⟨some "sp", none, some "n", some "d", some "av"⟩
        = .ok ⟨"sp", "claude-3-5-sonnet-latest", "n", "d", "av"⟩
      ∧ (Builder.build ⟨some "sp", none, some "n", some "d", some "av"⟩
          Builder.initDeps).2.current_config
        = some ⟨"sp", "claude-3-5-sonnet-latest", "n", "d", "av"⟩) :=
  ⟨⟨by decide,
    build_unsupported_model_atomic.1
      ⟨some "sp", some "gpt-99-nonexistent", some "n", some "d", some "av"⟩
      Builder.initDeps "gpt-99-nonexistent" rfl rfl rfl rfl rfl (by decide)⟩,
   rfl,
   (build_unsupported_model_atomic.2
      ⟨some "sp", none, some "n", some "d", some "av"⟩ Builder.initDeps
      ⟨"sp", "claude-3-5-sonnet-latest", "n", "d", "av"⟩ rfl).1⟩

/-- Claim C4 (counterexample): a builder run that makes a `create_agent`
tool call changes `current_config` — the builder agent's tools mutate the
session deps during the run, so the negotiate step is not side-effect-free
with respect to session state. -/
theorem builder_run_mutates_state :
    (BuilderStream.builder_run (M := Nat) (fun _ _ _ => Except.ok ⟨[], ""⟩)
        [.create ⟨"sp", "claude-3-5-sonnet-latest", "HaikuBot", "writes haiku"⟩]
        (BuilderStream.initDeps Nat)).current_config
      ≠ (BuilderStream.initDeps Nat).current_config := by
  decide

/-- Claim C4 (amended): the builder agent's tools mutate the session deps
directly during the run — `create_agent` sets `current_config` and
`created_agent` (leaving the history unchanged), and `handoff_to_agent`
appends the sub-agent run's messages to `message_history` (leaving the
configuration fields unchanged); no separate controller mutates the state
after the result is returned. -/
theorem builder_tools_mutate_deps_directly :
    (∀ (M : Type) (config : BuilderStream.AgentConfig)
        (deps : BuilderStream.BuilderDeps M),
        (BuilderStream.create_agent config deps).2
          = { deps with
                current_config := some config,
                created_agent :=
                  some ⟨config.model_name, config.system_prompt, config.name⟩ })
    ∧ (∀ (M : Type)
        (run : BuilderStream.Agent → String → List M →
          Except TransportError (BuilderStream.RunResult M))
        (deps : BuilderStream.BuilderDeps M) (q : String)
        (ag : BuilderStream.Agent) (r : BuilderStream.RunResult M),
        deps.created_agent = some ag → run ag q deps.message_history = .ok r →
        (BuilderStream.handoff_to_agent run deps q).2
          = { deps with
                message_history :=
                  deps.message_history
                    ++ BuilderStream.all_messages deps.message_history r }) := by
  constructor
  · intro M config deps
    rfl
  · intro M run deps q ag r hag hrun
    simp [BuilderStream.handoff_to_agent, hag, hrun]

/-- Witness for C4's amended statement at concrete inputs. -/
theorem builder_tools_mutate_deps_directly_witness :
    ((BuilderStream.create_agent
        ⟨"sp", "claude-3-5-sonnet-latest", "HaikuBot", "writes haiku"⟩
        (BuilderStream.initDeps Nat)).2
      = { BuilderStream.initDeps Nat with
            current_config :=
              some ⟨"sp", "claude-3-5-sonnet-latest", "HaikuBot", "writes haiku"⟩,
            created_agent := some ⟨"claude-3-5-sonnet-latest", "sp", "HaikuBot"⟩ })
    ∧ ((⟨[0], none, some ⟨"m", "s", "n"⟩⟩ :
          BuilderStream.BuilderDeps Nat).created_agent = some ⟨"m", "s", "n"⟩
      ∧ (BuilderStream.handoff_to_agent (fun _ _ _ => Except.ok ⟨[1], "t"⟩)
          (⟨[0], none, some ⟨"m", "s", "n"⟩⟩ : BuilderStream.BuilderDeps Nat) "q").2
        = { (⟨[0], none, some ⟨"m", "s", "n"⟩⟩ : BuilderStream.BuilderDeps Nat) with
              message_history :=
                [0] ++ BuilderStream.all_messages [0] ⟨[1], "t"⟩ }) :=
  ⟨builder_tools_mutate_deps_directly.1 Nat _ _,
   rfl,
   builder_tools_mutate_deps_directly.2 Nat _ _ "q" ⟨"m", "s", "n"⟩ ⟨[1], "t"⟩ rfl rfl⟩

/-- Claim C5: for every producer yielding fragments f1..fn, the text
accumulated by the streaming loop `response_text += chunk` is their
in-order concatenation — the text a single blocking call for the same
logical response delivers — with no fragment dropped or duplicated; the
hand-off and `chat_with_agent` paths return exactly that text. -/
theorem streaming_accumulation_equals_blocking :
    (∀ chunks : List String,
        Builder.accumulate_chunks chunks = Builder.deliver_blocking chunks)
    ∧ (∀ (stream : Builder.Agent → String → List String)
        (deps : Builder.BuilderDeps) (query : String) (ag : Builder.Agent),
        deps.created_agent = some ag →
        (Builder.handoff_to_agent stream deps query).1
          = .ok ⟨Builder.deliver_blocking (stream ag query)⟩)
    ∧ (∀ (M : Type) (streamRun : String → Option (List M) → List String × List M)
        (msg : String) (history : Option (List M)),
        (Builder.chat_with_agent streamRun msg history).1
          = Builder.deliver_blocking (streamRun msg history).1) := by
  have hacc : ∀ chunks : List String,
      Builder.accumulate_chunks chunks = Builder.deliver_blocking chunks :=
    fun _ => rfl
  refine ⟨hacc, ?_, ?_⟩
  · intro stream deps query ag hag
    simp [Builder.handoff_to_agent, hag, hacc]
  · intro M streamRun msg history
    rw [Builder.chat_with_agent]
    exact hacc _

/-- Witness for C5: a hand-off over the two fragments "Hello, " and "world"
returns their concatenation. -/
theorem streaming_accumulation_equals_blocking_witness :
    ((⟨none, some ⟨"m", "s", "n"⟩⟩ : Builder.BuilderDeps).created_agent
        = some ⟨"m", "s", "n"⟩
      ∧ (Builder.handoff_to_agent (fun _ _ => ["Hello, ", "world"])
          ⟨none, some ⟨"m", "s", "n"⟩⟩ "q").1
        = .ok ⟨Builder.deliver_blocking ["Hello, ", "world"]⟩)
    ∧ Builder.deliver_blocking ["Hello, ", "world"] = "Hello, world" :=
  ⟨⟨rfl,
    streaming_accumulation_equals_blocking.2.1 (fun _ _ => ["Hello, ", "world"])
      ⟨none, some ⟨"m", "s", "n"⟩⟩ "q" ⟨"m", "s", "n"⟩ rfl⟩,
   rfl⟩

/-- Claim C7 (counterexample): a candidate configuration whose
`system_prompt`, `name` and `description` are all the empty string passes
validation, and a candidate missing `avatar` is rejected — so validation
does not enforce non-emptiness and `avatar` is not optional in
`builder.py`. -/
theorem validate_accepts_empty_fields :
    Builder.validateAgentConfig ⟨some "", none, some "", some "", some ""⟩
      = .ok ⟨"", "claude-3-5-sonnet-latest", "", "", ""⟩
    ∧ Builder.validateAgentConfig ⟨some "x", none, some "n", some "d", none⟩
      = .error (.missingField "avatar") :=
  ⟨rfl, rfl⟩

/-- Claim C7 (amended): validation enforces exactly presence and string
type — any strings for `system_prompt`, `name`, `description` and `avatar`
(empty ones included) are accepted, with `model_name` defaulting to the
supported literal, an explicit supported `model_name` accepted, and a
missing `avatar` rejected. -/
theorem validate_field_requirements (sp n d av : String) :
    Builder.validateAgentConfig ⟨some sp, none, some n, some d, some av⟩
      = .ok ⟨sp, "claude-3-5-sonnet-latest", n, d, av⟩
    ∧ Builder.validateAgentConfig
        ⟨some sp, some "claude-3-5-sonnet-latest", some n, some d, some av⟩
      = .ok ⟨sp, "claude-3-5-sonnet-latest", n, d, av⟩
    ∧ Builder.validateAgentConfig ⟨some sp, none, some n, some d, none⟩
      = .error (.missingField "avatar") := by
  refine ⟨rfl, ?_, rfl⟩
  simp [Builder.validateAgentConfig, Builder.supportedModels]

/-- Claim C8: in both variants, attempting the hand-off while no sub-agent
has been created raises the retryable `ModelRetry` signal asking for an
agent to be created first, and returns the deps unchanged. -/
theorem handoff_without_agent_retries :
    (∀ (stream : Builder.Agent → String → List String)
        (deps : Builder.BuilderDeps) (q : String),
        deps.created_agent = none →
        Builder.handoff_to_agent stream deps q
          = (.error ⟨"No agent has been created yet. Please create an agent first."⟩,
             deps))
    ∧ (∀ (M : Type)
        (run : BuilderStream.Agent → String → List M →
          Except TransportError (BuilderStream.RunResult M))
        (deps : BuilderStream.BuilderDeps M) (q : String),
        deps.created_agent = none →
        BuilderStream.handoff_to_agent run deps q
          = (.error (.retry
              ⟨"No agent has been created yet. Please create an agent first."⟩),
             deps)) := by
  constructor
  · intro stream deps q h
    simp [Builder.handoff_to_agent, h]
  · intro M run deps q h
    simp [BuilderStream.handoff_to_agent, h]

/-- Witness for C8 at the initial (agent-less) states of both variants. -/
theorem handoff_without_agent_retries_witness :
    (Builder.initDeps.created_agent = none
      ∧ Builder.handoff_to_agent (fun _ _ => []) Builder.initDeps "hi"
        = (.error ⟨"No agent has been created yet. Please create an agent first."⟩,
           Builder.initDeps))
    ∧ ((BuilderStream.initDeps Nat).created_agent = none
      ∧ BuilderStream.handoff_to_agent (fun _ _ _ => Except.ok ⟨[], ""⟩)
          (BuilderStream.initDeps Nat) "hi"
        = (.error (.retry
            ⟨"No agent has been created yet. Please create an agent first."⟩),
           BuilderStream.initDeps Nat)) :=
  ⟨⟨rfl, handoff_without_agent_retries.1 (fun _ _ => []) Builder.initDeps "hi" rfl⟩,
   ⟨rfl, handoff_without_agent_retries.2 Nat (fun _ _ _ => Except.ok ⟨[], ""⟩)
      (BuilderStream.initDeps Nat) "hi" rfl⟩⟩

/-- Claim C9: every candidate configuration that passes schema validation —
in either variant — has `model_name` equal to `"claude-3-5-sonnet-latest"`
(the default when omitted), and for such validated candidates the build
succeeds: the unsupported-model failure branch is unreachable. -/
theorem validated_model_always_supported :
    (∀ (raw : Builder.RawAgentConfig) (config : Builder.AgentConfig),
        Builder.validateAgentConfig raw = .ok config →
        config.model_name = "claude-3-5-sonnet-latest")
    ∧ (∀ (raw : BuilderStream.RawAgentConfig) (config : BuilderStream.AgentConfig),
        BuilderStream.validateAgentConfig raw = .ok config →
        config.model_name = "claude-3-5-sonnet-latest")
    ∧ (∀ (raw : Builder.RawAgentConfig) (deps : Builder.BuilderDeps)
        (config : Builder.AgentConfig),
        Builder.validateAgentConfig raw = .ok config →
        (Builder.build raw deps).1 = .ok config) := by
  refine ⟨?_, ?_, ?_⟩
  · intro raw config h
    unfold Builder.validateAgentConfig at h
    repeat' split at h
    all_goals try exact Except.noConfusion h
    all_goals injection h with h2
    all_goals subst h2
    all_goals first
      | rfl
      | simp_all [Builder.supportedModels]
  · intro raw config h
    unfold BuilderStream.validateAgentConfig at h
    repeat' split at h
    all_goals try exact Except.noConfusion h
    all_goals injection h with h2
    all_goals subst h2
    all_goals first
      | rfl
      | simp_all [Builder.supportedModels]
  · intro raw deps config h
    rw [Builder.build, h]
    rfl

/-- Witness for C9: a validated candidate with the model field omitted gets
the supported model, and its build succeeds. -/
theorem validated_model_always_supported_witness :
    (Builder.validateAgentConfig ⟨some "s", none, some "n", some "d", some "a"⟩
      = .ok ⟨"s", "claude-3-5-sonnet-latest", "n", "d", "a"⟩
    ∧ (⟨"s", "claude-3-5-sonnet-latest", "n", "d", "a"⟩ :
        Builder.AgentConfig).model_name = "claude-3-5-sonnet-latest")
    ∧ (Builder.build ⟨some "s", none, some "n", some "d", some "a"⟩
        Builder.initDeps).1
      = .ok ⟨"s", "claude-3-5-sonnet-latest", "n", "d", "a"⟩ :=
  ⟨⟨rfl,
    validated_model_always_supported.1
      ⟨some "s", none, some "n", some "d", some "a"⟩
      ⟨"s", "claude-3-5-sonnet-latest", "n", "d", "a"⟩ rfl⟩,
   validated_model_always_supported.2.2
      ⟨some "s", none, some "n", some "d", some "a"⟩ Builder.initDeps
      ⟨"s", "claude-3-5-sonnet-latest", "n", "d", "a"⟩ rfl⟩
